import Mathlib

/-!
Verification development for the Production Intelligence System's client-side
data-synchronisation core.

The definitions below are shallow embeddings of the TypeScript source:
  * the zod ingestion schemas of `src/types/schemas.ts` (NetworkMetricsSchema,
    FacilityNetworksSchema, FacilityRefSchema, ProductionUnitSchema,
    AssetItemSchema, AssetsResponseSchema, ...);
  * the `/api/gap-drivers` handler of the mock service worker
    (driver generation, priority bucketing, sorting, truncation);
  * the optimistic mutation transforms of `useAcknowledgeOptimisation` /
    `useImplementOptimisation` together with a model of the query cache
    they act on;
  * the retry predicates of `useNodes` and `useProductionFlow`;
  * the cache-invalidation mapping of the `useWebSocket` message handler.

JSON numbers are modelled as `ℚ`, strings as `String`, absent JSON fields as
`none`, and fallible zod parses as `Option`-valued functions (zod's `.parse`
throws on the first schema violation; here that is `none`).  Fields whose
runtime value is a wall-clock timestamp (`new Date().toISOString()`) are
ordinary strings supplied by the caller.
-/

/- ===================== Ingestion schemas (src/types/schemas.ts) ============ -/

/-- TrendSchema = z.enum(['up', 'down', 'stable']). -/
inductive Trend
  | up
  | down
  | stable
deriving DecidableEq

/-- Parsed NetworkMetricsSchema value: all numeric fields defaulted to 0,
unit defaulted to 'bbl/d', trend to 'stable', changePercent to 0. -/
structure NetworkMetrics where
  maxCapacity : ℚ
  businessTarget : ℚ
  currentProduction : ℚ
  deferment : ℚ
  unit : String
  trend : Trend
  changePercent : ℚ
deriving DecidableEq

/-- DEFAULT_FLARED_GAS_METRICS, the documented zero-value flared-gas struct. -/
def DEFAULT_FLARED_GAS_METRICS : NetworkMetrics :=
  { maxCapacity := 0, businessTarget := 0, currentProduction := 0, deferment := 0,
    unit := "mcf/d", trend := Trend.stable, changePercent := 0 }

/-- Raw (pre-parse) network metrics object: every field may be absent. -/
structure RawNetworkMetrics where
  maxCapacity : Option ℚ := none
  businessTarget : Option ℚ := none
  currentProduction : Option ℚ := none
  deferment : Option ℚ := none
  unit : Option String := none
  trend : Option Trend := none
  changePercent : Option ℚ := none
deriving DecidableEq

/-- z.number().nonnegative().optional().default(0): an absent field becomes 0,
a present negative number fails the parse. -/
def parseNonneg (v : Option ℚ) : Option ℚ :=
  match v with
  | none => some 0
  | some x => if 0 ≤ x then some x else none

/-- NetworkMetricsSchema.parse.  Note that a supplied `deferment` is only
checked for non-negativity; it is neither validated against nor recomputed
from `businessTarget - currentProduction`. -/
def parseNetworkMetrics (r : RawNetworkMetrics) : Option NetworkMetrics := do
  let mc ← parseNonneg r.maxCapacity
  let bt ← parseNonneg r.businessTarget
  let cp ← parseNonneg r.currentProduction
  let df ← parseNonneg r.deferment
  pure { maxCapacity := mc, businessTarget := bt, currentProduction := cp, deferment := df,
         unit := r.unit.getD "bbl/d", trend := r.trend.getD Trend.stable,
         changePercent := r.changePercent.getD 0 }

/-- Raw networks object of FacilityNetworksSchema / UnitNetworksSchema:
each of the four streams may be absent. -/
structure RawNetworks where
  oil : Option RawNetworkMetrics := none
  domesticGas : Option RawNetworkMetrics := none
  exportGas : Option RawNetworkMetrics := none
  flaredGas : Option RawNetworkMetrics := none
deriving DecidableEq

/-- Parsed networks map.  The `.transform` of the source guarantees nothing
about the first three streams but always writes a `flaredGas` entry. -/
structure FacilityNetworks where
  oil : Option NetworkMetrics
  domesticGas : Option NetworkMetrics
  exportGas : Option NetworkMetrics
  flaredGas : Option NetworkMetrics
deriving DecidableEq

/-- NetworkMetricsSchema.optional(): absent stays absent, present is parsed. -/
def parseOptMetrics : Option RawNetworkMetrics → Option (Option NetworkMetrics)
  | none => some none
  | some r => (parseNetworkMetrics r).map some

/-- FacilityNetworksSchema / UnitNetworksSchema:
z.object({oil?, domesticGas?, exportGas?, flaredGas?}).partial()
 .default({flaredGas: DEFAULT_FLARED_GAS_METRICS})
 .transform(networks => {...networks, flaredGas: {...DEFAULT, ...flaredGas}}).
An absent object takes the default; a present object has each supplied stream
parsed, and the transform fills `flaredGas` with the default when missing
(a parsed flaredGas is a complete record, so the spread keeps it whole). -/
def parseNetworksObj (r : Option RawNetworks) : Option FacilityNetworks :=
  match r with
  | none =>
    some { oil := none, domesticGas := none, exportGas := none,
           flaredGas := some DEFAULT_FLARED_GAS_METRICS }
  | some raw => do
    let oilM ← parseOptMetrics raw.oil
    let dgM ← parseOptMetrics raw.domesticGas
    let egM ← parseOptMetrics raw.exportGas
    let fgM ← parseOptMetrics raw.flaredGas
    pure { oil := oilM, domesticGas := dgM, exportGas := egM,
           flaredGas := some (fgM.getD DEFAULT_FLARED_GAS_METRICS) }

/-- FacilityTypeSchema = z.enum(['flowstation','compressor-station','gas-plant','terminal']). -/
inductive FacilityType
  | flowstation
  | compressorStation
  | gasPlant
  | terminal
deriving DecidableEq

/-- Raw facility entry of the assets hierarchy (pre-parse). -/
structure RawFacilityRef where
  id : Option String := none
  ftype : Option FacilityType := none
  networks : Option RawNetworks := none
deriving DecidableEq

/-- Parsed FacilityRefSchema value (`ftype` embeds the source's `type`). -/
structure FacilityRef where
  id : String
  ftype : FacilityType
  networks : FacilityNetworks
deriving DecidableEq

/-- FacilityRefSchema: `id` and `type` are required (no default, no optional);
`networks` defaults through FacilityNetworksSchema. -/
def parseFacilityRef (r : RawFacilityRef) : Option FacilityRef := do
  let i ← r.id
  let t ← r.ftype
  let nets ← parseNetworksObj r.networks
  pure { id := i, ftype := t, networks := nets }

/-- z.array(schema): every element must parse, else the whole array fails. -/
def parseArray (f : α → Option β) : List α → Option (List β)
  | [] => some []
  | a :: as => do
    let b ← f a
    let bs ← parseArray f as
    pure (b :: bs)

/-- Production unit status enum, default 'online'. -/
inductive UnitStatus
  | online
  | offline
  | maintenance
  | startup
deriving DecidableEq

/-- Raw production unit (pre-parse). -/
structure RawProductionUnit where
  id : Option String := none
  name : Option String := none
  status : Option UnitStatus := none
  equipmentCount : Option ℚ := none
  activeEquipment : Option ℚ := none
  lastUpdated : Option String := none
  facilities : Option (List RawFacilityRef) := none
  networks : Option RawNetworks := none
deriving DecidableEq

/-- Parsed ProductionUnitSchema value. -/
structure ProductionUnit where
  id : String
  name : String
  status : UnitStatus
  equipmentCount : ℚ
  activeEquipment : ℚ
  lastUpdated : String
  facilities : List FacilityRef
  networks : FacilityNetworks
deriving DecidableEq

/-- ProductionUnitSchema: `id`, `name`, `lastUpdated` required; `status`
defaults to 'online'; counters are non-negative with default 0; `facilities`
defaults to []; `networks` goes through UnitNetworksSchema (same chain as
FacilityNetworksSchema). -/
def parseProductionUnit (r : RawProductionUnit) : Option ProductionUnit := do
  let i ← r.id
  let n ← r.name
  let ec ← parseNonneg r.equipmentCount
  let ae ← parseNonneg r.activeEquipment
  let lu ← r.lastUpdated
  let facs ← parseArray parseFacilityRef (r.facilities.getD [])
  let nets ← parseNetworksObj r.networks
  pure { id := i, name := n, status := r.status.getD UnitStatus.online,
         equipmentCount := ec, activeEquipment := ae, lastUpdated := lu,
         facilities := facs, networks := nets }

/-- Asset identifier enum: z.enum(['east','west']). -/
inductive AssetId
  | east
  | west
deriving DecidableEq

/-- Asset status enum, default 'normal'. -/
inductive AssetStatus
  | normal
  | warning
  | critical
deriving DecidableEq

/-- AssetPerformanceSchema trend enum, default 'stable'. -/
inductive PerfTrend
  | increasing
  | stable
  | decreasing
deriving DecidableEq

/-- Raw AssetPerformanceSchema object (pre-parse). -/
structure RawAssetPerformance where
  currentProduction : Option ℚ := none
  capacity : Option ℚ := none
  businessTarget : Option ℚ := none
  deferment : Option ℚ := none
  trend : Option PerfTrend := none
  changePercent : Option ℚ := none
deriving DecidableEq

/-- Parsed AssetPerformanceSchema value. -/
structure AssetPerformance where
  currentProduction : ℚ
  capacity : ℚ
  businessTarget : ℚ
  deferment : ℚ
  trend : PerfTrend
  changePercent : ℚ
deriving DecidableEq

/-- AssetPerformanceSchema parse: non-negative numerics with default 0. -/
def parseAssetPerformance (r : RawAssetPerformance) : Option AssetPerformance := do
  let cp ← parseNonneg r.currentProduction
  let cap ← parseNonneg r.capacity
  let bt ← parseNonneg r.businessTarget
  let df ← parseNonneg r.deferment
  pure { currentProduction := cp, capacity := cap, businessTarget := bt, deferment := df,
         trend := r.trend.getD PerfTrend.stable, changePercent := r.changePercent.getD 0 }

/-- Raw AssetSummarySchema object (pre-parse). -/
structure RawAssetSummary where
  totalUnits : Option ℚ := none
  activeUnits : Option ℚ := none
  offlineUnits : Option ℚ := none
deriving DecidableEq

/-- Parsed AssetSummarySchema value. -/
structure AssetSummary where
  totalUnits : ℚ
  activeUnits : ℚ
  offlineUnits : ℚ
deriving DecidableEq

/-- AssetSummarySchema parse. -/
def parseAssetSummary (r : RawAssetSummary) : Option AssetSummary := do
  let t ← parseNonneg r.totalUnits
  let a ← parseNonneg r.activeUnits
  let o ← parseNonneg r.offlineUnits
  pure { totalUnits := t, activeUnits := a, offlineUnits := o }

/-- Raw AssetConstraintsSchema object (pre-parse). -/
structure RawAssetConstraints where
  active : Option ℚ := none
  critical : Option ℚ := none
  warning : Option ℚ := none
deriving DecidableEq

/-- Parsed AssetConstraintsSchema value. -/
structure AssetConstraints where
  active : ℚ
  critical : ℚ
  warning : ℚ
deriving DecidableEq

/-- AssetConstraintsSchema parse. -/
def parseAssetConstraints (r : RawAssetConstraints) : Option AssetConstraints := do
  let a ← parseNonneg r.active
  let c ← parseNonneg r.critical
  let w ← parseNonneg r.warning
  pure { active := a, critical := c, warning := w }

/-- Raw AssetItemSchema object (pre-parse). -/
structure RawAssetItem where
  id : Option AssetId := none
  name : Option String := none
  status : Option AssetStatus := none
  performance : Option RawAssetPerformance := none
  productionUnits : Option (List RawProductionUnit) := none
  summary : Option RawAssetSummary := none
  constraints : Option RawAssetConstraints := none
deriving DecidableEq

/-- Parsed AssetItemSchema value. -/
structure AssetItem where
  id : AssetId
  name : String
  status : AssetStatus
  performance : AssetPerformance
  productionUnits : List ProductionUnit
  summary : AssetSummary
  constraints : AssetConstraints
deriving DecidableEq

/-- AssetItemSchema: `id`, `name`, `performance`, `summary`, `constraints`
required; `status` defaults to 'normal'; `productionUnits` defaults to []. -/
def parseAssetItem (r : RawAssetItem) : Option AssetItem := do
  let i ← r.id
  let n ← r.name
  let perfRaw ← r.performance
  let perf ← parseAssetPerformance perfRaw
  let units ← parseArray parseProductionUnit (r.productionUnits.getD [])
  let sumRaw ← r.summary
  let sm ← parseAssetSummary sumRaw
  let conRaw ← r.constraints
  let con ← parseAssetConstraints conRaw
  pure { id := i, name := n, status := r.status.getD AssetStatus.normal,
         performance := perf, productionUnits := units, summary := sm, constraints := con }

/-- Raw comparison sub-object of AssetsResponseSchema (pre-parse). -/
structure RawComparison where
  productionDifference : Option ℚ := none
  trend : Option String := none
deriving DecidableEq

/-- Parsed comparison value. -/
structure Comparison where
  productionDifference : ℚ
  trend : String
deriving DecidableEq

/-- Raw AssetsResponseSchema object (pre-parse). -/
structure RawAssetsResponse where
  assets : Option (List RawAssetItem) := none
  comparison : Option RawComparison := none
  timestamp : Option String := none
deriving DecidableEq

/-- Parsed AssetsResponseSchema value: what `useAssets` hands to the cache. -/
structure AssetsResponse where
  assets : List AssetItem
  comparison : Comparison
  timestamp : String
deriving DecidableEq

/-- AssetsResponseSchema.parse, the ingestion entry point used by the
`useAssets` query function. -/
def parseAssetsResponse (r : RawAssetsResponse) : Option AssetsResponse := do
  let rawAssets ← r.assets
  let assets ← parseArray parseAssetItem rawAssets
  let compRaw ← r.comparison
  let ts ← r.timestamp
  pure { assets := assets,
         comparison := { productionDifference := compRaw.productionDifference.getD 0,
                         trend := compRaw.trend.getD "" },
         timestamp := ts }

/- ============== Gap Driver Engine (mock handler GET /api/gap-drivers) ====== -/

/-- StreamTypeSchema values: 'oil' | 'export-gas' | 'domestic-gas'. -/
inductive StreamType
  | oil
  | exportGas
  | domesticGas
deriving DecidableEq

/-- Network keys of a facility's networks map. -/
inductive NetworkKey
  | oil
  | domesticGas
  | exportGas
  | flaredGas
deriving DecidableEq

/-- The handler's toStream helper (renamed: `toStream` clashes with a core
class method): maps a network key to the GapDriver stream type; flaredGas is
not a producible stream and yields null. -/
def toStreamType : NetworkKey → Option StreamType
  | NetworkKey.oil => some StreamType.oil
  | NetworkKey.domesticGas => some StreamType.domesticGas
  | NetworkKey.exportGas => some StreamType.exportGas
  | NetworkKey.flaredGas => none

/-- BasicNetMetrics of the handler: maxCapacity?, deferment?, unit?. -/
structure BasicNetMetrics where
  maxCapacity : Option ℚ := none
  deferment : Option ℚ := none
  unit : Option String := none
deriving DecidableEq

/-- FacilityNet of the handler: a facility with its networks map
(`ftype` embeds the source's `type`; map entries keep object-literal order). -/
structure FacilityNet where
  id : String
  name : String
  ftype : FacilityType
  networks : List (NetworkKey × BasicNetMetrics)
deriving DecidableEq

/-- A production unit of the handler's hard-coded hierarchy. -/
structure GapUnit where
  unitId : String
  unitName : String
  facilities : List FacilityNet
deriving DecidableEq

/-- An asset of the handler's hard-coded hierarchy. -/
structure GapAsset where
  assetId : AssetId
  units : List GapUnit
deriving DecidableEq

/-- String form of an asset id, as interpolated into driver ids. -/
def assetIdStr : AssetId → String
  | AssetId.east => "east"
  | AssetId.west => "west"

/-- String form of a network key, as interpolated into driver ids. -/
def networkKeyStr : NetworkKey → String
  | NetworkKey.oil => "oil"
  | NetworkKey.domesticGas => "domesticGas"
  | NetworkKey.exportGas => "exportGas"
  | NetworkKey.flaredGas => "flaredGas"

/-- GapDriver priority enum. -/
inductive Priority
  | critical
  | high
  | medium
  | low
deriving DecidableEq

/-- GapDriver gapType enum. -/
inductive GapType
  | throughput
  | efficiency
  | maintenance
  | constraint
deriving DecidableEq

/-- Driver record produced by the handler.  The wall-clock / random duration
fields (duration.start, totalHours' random summand, lastUpdated) are omitted:
no verified property mentions them and they depend on Date.now()/Math.random(). -/
structure GapDriver where
  id : String
  nodeId : String
  nodeName : String
  gapType : GapType
  lostProduction : ℤ
  unit : String
  percentage : ℚ
  affectedStreams : List StreamType
  priority : Priority
deriving DecidableEq

/-- Rational division in explicitly normalised form.  `jsDiv a b = a / b`
(theorem jsDiv_eq_div below); this spelling keeps concrete evaluations
kernel-computable, which the irreducible field operations on ℚ are not. -/
def jsDiv (a b : ℚ) : ℚ :=
  mkRat (a.num * b.den * b.num.sign) (a.den * b.num.natAbs)

/-- Rational multiplication in explicitly normalised form
(`ratMul a b = a * b`, theorem ratMul_eq_mul below). -/
def ratMul (a b : ℚ) : ℚ :=
  mkRat (a.num * b.num) (a.den * b.den)

/-- Rational addition in explicitly normalised form
(`ratAdd a b = a + b`, theorem ratAdd_eq_add below). -/
def ratAdd (a b : ℚ) : ℚ :=
  mkRat (a.num * b.den + b.num * a.den) (a.den * b.den)

/-- percentage = capacity > 0 ? (lost / capacity) * 100 : 0
(in the computable spelling; theorem gapPercentage_eq gives the / form). -/
def gapPercentage (lost capacity : ℚ) : ℚ :=
  if 0 < capacity then ratMul (jsDiv lost capacity) 100 else 0

/-- Priority bucketing: percentage >= 30 critical, >= 20 high, >= 10 medium,
else low. -/
def priorityOf (percentage : ℚ) : Priority :=
  if 30 ≤ percentage then Priority.critical
  else if 20 ≤ percentage then Priority.high
  else if 10 ≤ percentage then Priority.medium
  else Priority.low

/-- Gap type heuristic by facility type: compressor-station maintenance,
gas-plant efficiency, otherwise constraint. -/
def gapTypeOf : FacilityType → GapType
  | FacilityType.compressorStation => GapType.maintenance
  | FacilityType.gasPlant => GapType.efficiency
  | _ => GapType.constraint

/-- Number(q.toFixed(1)) for a non-negative q: round to one decimal, ties
toward the larger value, as ECMAScript toFixed specifies; equals
(⌊q * 10 + 1/2⌋ : ℚ) / 10 (theorem jsToFixed1_eq below), spelt with
Rat.floor and mkRat so that it is kernel-computable. -/
def jsToFixed1 (q : ℚ) : ℚ := mkRat (Rat.floor (ratAdd (ratMul q 10) (mkRat 1 2))) 10

/-- Driver construction for one (facility, network key, metrics) triple:
lost = max(0, floor(deferment ?? 0)); unit falls back by key; flaredGas and
zero losses are skipped; capacity falls back to 5000 (oil) / 50000 (gas). -/
def mkDriver (assetId : AssetId) (unitId : String) (fac : FacilityNet)
    (key : NetworkKey) (metrics : BasicNetMetrics) : Option GapDriver :=
  let lost : ℤ := max 0 (Rat.floor (metrics.deferment.getD 0))
  let unitStr : String :=
    metrics.unit.getD (if key = NetworkKey.oil then "bbl/d" else "mcf/d")
  match toStreamType key with
  | none => none
  | some stream =>
    if lost = 0 then none
    else
      let capacity : ℚ :=
        metrics.maxCapacity.getD (if key = NetworkKey.oil then 5000 else 50000)
      let percentage : ℚ := gapPercentage (lost : ℚ) capacity
      some { id := "gap-" ++ assetIdStr assetId ++ "-" ++ unitId ++ "-" ++ fac.id
                   ++ "-" ++ networkKeyStr key,
             nodeId := fac.id, nodeName := fac.name,
             gapType := gapTypeOf fac.ftype,
             lostProduction := lost, unit := unitStr,
             percentage := jsToFixed1 percentage,
             affectedStreams := [stream],
             priority := priorityOf percentage }

/-- The handler's hard-coded facility/network view (the `assets` literal of
the GET /api/gap-drivers handler). -/
def gapAssets : List GapAsset :=
  [ { assetId := AssetId.east,
      units :=
        [ { unitId := "east-production-unit-01", unitName := "Soku Production Unit",
            facilities :=
              [ { id := "flowstation-001", name := "East Flowstation 001",
                  ftype := FacilityType.flowstation,
                  networks :=
                    [ (NetworkKey.oil, { maxCapacity := some 5000, deferment := some 1200, unit := some "bbl/d" }),
                      (NetworkKey.flaredGas, { deferment := some 300, unit := some "mcf/d" }) ] },
                { id := "compressor-001", name := "East Compressor 001",
                  ftype := FacilityType.compressorStation,
                  networks :=
                    [ (NetworkKey.domesticGas, { maxCapacity := some 4000, deferment := some 700, unit := some "mcf/d" }),
                      (NetworkKey.exportGas, { maxCapacity := some 6000, deferment := some 1500, unit := some "mcf/d" }),
                      (NetworkKey.flaredGas, { deferment := some 200, unit := some "mcf/d" }) ] },
                { id := "gasplant-001", name := "East Gas Plant 001",
                  ftype := FacilityType.gasPlant,
                  networks :=
                    [ (NetworkKey.domesticGas, { maxCapacity := some 4200, deferment := some 700, unit := some "mcf/d" }),
                      (NetworkKey.exportGas, { maxCapacity := some 6500, deferment := some 1300, unit := some "mcf/d" }),
                      (NetworkKey.flaredGas, { maxCapacity := some 1500, deferment := some 600, unit := some "mcf/d" }) ] } ] },
          { unitId := "east-production-unit-02", unitName := "Gbaran",
            facilities :=
              [ { id := "flowstation-002", name := "East Flowstation 002",
                  ftype := FacilityType.flowstation,
                  networks :=
                    [ (NetworkKey.oil, { maxCapacity := some 50000, deferment := some 12000, unit := some "bbl/d" }),
                      (NetworkKey.flaredGas, { deferment := some 400, unit := some "mcf/d" }) ] },
                { id := "compressor-002", name := "East Compressor 002",
                  ftype := FacilityType.compressorStation,
                  networks :=
                    [ (NetworkKey.domesticGas, { maxCapacity := some 40000, deferment := some 7000, unit := some "mcf/d" }),
                      (NetworkKey.exportGas, { maxCapacity := some 60000, deferment := some 15000, unit := some "mcf/d" }),
                      (NetworkKey.flaredGas, { deferment := some 400, unit := some "mcf/d" }) ] },
                { id := "gasplant-002", name := "East Gas Plant 002",
                  ftype := FacilityType.gasPlant,
                  networks :=
                    [ (NetworkKey.domesticGas, { maxCapacity := some 48000, deferment := some 9000, unit := some "mcf/d" }),
                      (NetworkKey.exportGas, { maxCapacity := some 75000, deferment := some 15000, unit := some "mcf/d" }),
                      (NetworkKey.flaredGas, { maxCapacity := some 1600, deferment := some 650, unit := some "mcf/d" }) ] } ] } ] },
    { assetId := AssetId.west,
      units :=
        [ { unitId := "west-production-unit-01", unitName := "Forcados",
            facilities :=
              [ { id := "flowstation-101", name := "West Flowstation 101",
                  ftype := FacilityType.flowstation,
                  networks :=
                    [ (NetworkKey.oil, { maxCapacity := some 60000, deferment := some 18000, unit := some "bbl/d" }),
                      (NetworkKey.flaredGas, { deferment := some 250, unit := some "mcf/d" }) ] },
                { id := "compressor-101", name := "West Compressor 101",
                  ftype := FacilityType.compressorStation,
                  networks :=
                    [ (NetworkKey.domesticGas, { maxCapacity := some 38000, deferment := some 8000, unit := some "mcf/d" }),
                      (NetworkKey.exportGas, { maxCapacity := some 58000, deferment := some 15000, unit := some "mcf/d" }),
                      (NetworkKey.flaredGas, { deferment := some 250, unit := some "mcf/d" }) ] },
                { id := "gasplant-101", name := "West Gas Plant 101",
                  ftype := FacilityType.gasPlant,
                  networks :=
                    [ (NetworkKey.domesticGas, { maxCapacity := some 42000, deferment := some 7000, unit := some "mcf/d" }),
                      (NetworkKey.exportGas, { maxCapacity := some 60000, deferment := some 15000, unit := some "mcf/d" }),
                      (NetworkKey.flaredGas, { maxCapacity := some 1200, deferment := some 300, unit := some "mcf/d" }) ] } ] },
          { unitId := "west-production-unit-02", unitName := "Outumara",
            facilities :=
              [ { id := "flowstation-201", name := "West Flowstation 201",
                  ftype := FacilityType.flowstation,
                  networks :=
                    [ (NetworkKey.oil, { maxCapacity := some 52000, deferment := some 13000, unit := some "bbl/d" }),
                      (NetworkKey.flaredGas, { deferment := some 300, unit := some "mcf/d" }) ] },
                { id := "compressor-201", name := "West Compressor 201",
                  ftype := FacilityType.compressorStation,
                  networks :=
                    [ (NetworkKey.domesticGas, { maxCapacity := some 35000, deferment := some 5000, unit := some "mcf/d" }),
                      (NetworkKey.exportGas, { maxCapacity := some 52000, deferment := some 9000, unit := some "mcf/d" }),
                      (NetworkKey.flaredGas, { deferment := some 300, unit := some "mcf/d" }) ] },
                { id := "gasplant-201", name := "West Gas Plant 201",
                  ftype := FacilityType.gasPlant,
                  networks :=
                    [ (NetworkKey.domesticGas, { maxCapacity := some 40000, deferment := some 7000, unit := some "mcf/d" }),
                      (NetworkKey.exportGas, { maxCapacity := some 58000, deferment := some 13000, unit := some "mcf/d" }),
                      (NetworkKey.flaredGas, { maxCapacity := some 1100, deferment := some 300, unit := some "mcf/d" }) ] } ] } ] } ]

/-- The nested driver-collection loop of the handler, with its optional asset
filter (`if (assetFilter && asset.assetId !== assetFilter) continue`). -/
def collectDrivers (assetFilter : Option AssetId) : List GapDriver :=
  (gapAssets.filter fun a =>
    match assetFilter with
    | none => true
    | some f => a.assetId = f).flatMap fun asset =>
      asset.units.flatMap fun u =>
        u.facilities.flatMap fun fac =>
          fac.networks.filterMap fun kv => mkDriver asset.assetId u.unitId fac kv.1 kv.2

/-- One step of the stable insertion sort: keep walking while the existing
element's lostProduction is at least as large (descending order, stable). -/
def insertByLost (d : GapDriver) : List GapDriver → List GapDriver
  | [] => [d]
  | x :: xs =>
    if d.lostProduction ≤ x.lostProduction then x :: insertByLost d xs
    else d :: x :: xs

/-- drivers.sort((a, b) => b.impact.lostProduction - a.impact.lostProduction):
stable sort, descending by lostProduction. -/
def sortByLostDesc (l : List GapDriver) : List GapDriver :=
  l.foldl (fun acc d => insertByLost d acc) []

/-- The handler's response body: sort by impact and cap the list to top 12
(`drivers.slice(0, 12)`). -/
def gapDriversResponse (assetFilter : Option AssetId) : List GapDriver :=
  (sortByLostDesc (collectDrivers assetFilter)).take 12

/- ========== Mutation Coordinator (useOptimisations.ts hooks) =============== -/

/-- OptimisationAction status enum. -/
inductive OptStatus
  | pending
  | acknowledged
  | implementing
  | completed
  | rejected
deriving DecidableEq

/-- OptimisationAction type enum. -/
inductive OptActionType
  | pressureAdjust
  | flowRedistribution
  | maintenanceSchedule
  | capacityUpgrade
deriving DecidableEq

/-- Implementation effort enum. -/
inductive Effort
  | low
  | medium
  | high
deriving DecidableEq

/-- impact sub-object of OptimisationAction. -/
structure OptImpact where
  estimatedGain : ℚ
  unit : String
  confidence : ℚ
  timeframe : String
deriving DecidableEq

/-- implementation sub-object of OptimisationAction. -/
structure OptImplementation where
  effort : Effort
  estimatedCost : Option ℚ := none
  currency : Option String := none
  requiredSkills : List String
  estimatedDuration : String
deriving DecidableEq

/-- OptimisationAction entity (`atype` embeds the source's `type`).  The
optimistic acknowledge transform adds an `acknowledgedAt` property, absent
until then. -/
structure OptimisationAction where
  id : String
  stream : StreamType
  atype : OptActionType
  title : String
  description : String
  impact : OptImpact
  implementation : OptImplementation
  affectedNodes : List String
  status : OptStatus
  priority : ℚ
  createdAt : String
  validUntil : String
  acknowledgedAt : Option String := none
deriving DecidableEq

/-- summary sub-object of OptimisationResponse.  Counters live in ℤ: the
optimistic transforms decrement without a floor. -/
structure OptSummary where
  total : ℤ
  pending : ℤ
  acknowledged : ℤ
  implemented : ℤ
  totalPotentialValue : ℚ
deriving DecidableEq

/-- OptimisationResponse, the cached value of every 'optimisations' query. -/
structure OptimisationResponse where
  optimisations : List OptimisationAction
  summary : OptSummary
deriving DecidableEq

/-- Query keys, abstracted to their scalar components (e.g.
["optimisations"], ["optimisations", "asset", "east"], ["summary"]). -/
abbrev QueryKey : Type := List String

/-- TanStack Query partial key matching: the filter key must be a prefix of
the entry key. -/
def keyMatches (pattern key : QueryKey) : Bool :=
  List.isPrefixOf pattern key

/-- The query cache restricted to one value type: entries are (key, data)
pairs; `none` data is a query that has not resolved yet (undefined). -/
abbrev OptCache : Type := List (QueryKey × Option OptimisationResponse)

/-- queryClient.getQueriesData({queryKey: pattern}): snapshot of every
matching entry. -/
def getQueriesData (pattern : QueryKey) (c : OptCache) :
    List (QueryKey × Option OptimisationResponse) :=
  c.filter fun e => keyMatches pattern e.1

/-- queryClient.setQueriesData({queryKey: pattern}, updater): applies the
updater to the data of every matching entry. -/
def setQueriesData (pattern : QueryKey)
    (f : Option OptimisationResponse → Option OptimisationResponse)
    (c : OptCache) : OptCache :=
  c.map fun e => if keyMatches pattern e.1 then (e.1, f e.2) else e

/-- queryClient.setQueryData(key, value): exact-key write.  A `none` value
(undefined) does not update the entry, per the query client's contract. -/
def setQueryData (k : QueryKey) (v : Option OptimisationResponse) (c : OptCache) : OptCache :=
  match v with
  | none => c
  | some w => c.map fun e => if e.1 = k then (e.1, some w) else e

/-- The onError rollback: `context.previousData.forEach(([queryKey, data]) =>
queryClient.setQueryData(queryKey, data))`. -/
def rollback (snapshot : List (QueryKey × Option OptimisationResponse))
    (c : OptCache) : OptCache :=
  snapshot.foldl (fun acc e => setQueryData e.1 e.2 acc) c

/-- The acknowledge updater: map the collection, set the matching item's
status to 'acknowledged' and stamp acknowledgedAt; decrement summary.pending,
increment summary.acknowledged; an empty (undefined) entry is left alone. -/
def ackUpdater (targetId now : String) :
    Option OptimisationResponse → Option OptimisationResponse
  | none => none
  | some old =>
    some { old with
           optimisations := old.optimisations.map fun opt =>
             if opt.id = targetId then
               { opt with status := OptStatus.acknowledged, acknowledgedAt := some now }
             else opt,
           summary := { old.summary with
                        pending := old.summary.pending - 1,
                        acknowledged := old.summary.acknowledged + 1 } }

/-- The implement updater: matching item's status becomes 'completed';
decrement summary.pending, increment summary.implemented. -/
def implementUpdater (targetId : String) :
    Option OptimisationResponse → Option OptimisationResponse
  | none => none
  | some old =>
    some { old with
           optimisations := old.optimisations.map fun opt =>
             if opt.id = targetId then { opt with status := OptStatus.completed }
             else opt,
           summary := { old.summary with
                        pending := old.summary.pending - 1,
                        implemented := old.summary.implemented + 1 } }

/-- onMutate of useAcknowledgeOptimisation, cache part: snapshot all
['optimisations'] entries, then optimistically rewrite them.  Returns
(context.previousData, the updated cache). -/
def ackOnMutate (targetId now : String) (c : OptCache) :
    List (QueryKey × Option OptimisationResponse) × OptCache :=
  (getQueriesData ["optimisations"] c,
   setQueriesData ["optimisations"] (ackUpdater targetId now) c)

/- ========== Retry predicates (useNodes.ts / useProductionFlow.ts) ========== -/

/-- useNodes retry callback: `if (error.message.includes('4')) return false;
return failureCount < 3`.  A single-character includes is membership of that
character, modelled over the message's character list. -/
def useNodesRetry (failureCount : ℕ) (errorMessage : String) : Bool :=
  if errorMessage.data.contains '4' then false else decide (failureCount < 3)

/-- The error message axios attaches to an HTTP failure with a given status
code. -/
def axiosStatusMessage (code : ℕ) : String :=
  "Request failed with status code " ++ toString code

/-- useProductionFlow retry option: `retry: 3` retries every failure while
fewer than 3 attempts have failed, regardless of the error. -/
def productionFlowRetry (failureCount : ℕ) : Bool :=
  decide (failureCount < 3)

/-- useProductionFlow retryDelay: attemptIndex => Math.min(1000 * 2 **
attemptIndex, 10000) (milliseconds). -/
def productionFlowRetryDelay (attemptIndex : ℕ) : ℕ :=
  min (1000 * 2 ^ attemptIndex) 10000

/- ========== Event Notifier (useWebSocket.ts handleMessage) ================= -/

/-- Event types delivered on the push channel. -/
inductive EventType
  | newOptimisation
  | optimisationUpdate
  | systemAlert
  | performanceChange
deriving DecidableEq

/-- The parts of an OptimisationEvent the invalidation logic reads: its type
and the optional affectedAssets list.  No optimisation-id field is consulted
anywhere in the handler. -/
structure OptimisationEvent where
  etype : EventType
  affectedAssets : Option (List AssetId) := none
deriving DecidableEq

/-- The cache invalidations issued by handleMessage for one event: the
event-type switch, followed by the asset-specific invalidations when
affectedAssets is present. -/
def invalidationsFor (e : OptimisationEvent) : List QueryKey :=
  (match e.etype with
   | EventType.newOptimisation => [["optimisations"]]
   | EventType.optimisationUpdate => [["optimisations"]]
   | EventType.systemAlert => [["alerts"], ["summary"]]
   | EventType.performanceChange => [["summary"], ["nodes"]])
  ++ (match e.affectedAssets with
      | none => []
      | some assets => assets.flatMap fun a =>
          [["summary", "asset", assetIdStr a], ["optimisations", "asset", assetIdStr a]])

/-- A cache entry with key `k` is marked stale by event `e` iff some issued
invalidation pattern matches `k`. -/
def staleAfterEvent (e : OptimisationEvent) (k : QueryKey) : Bool :=
  (invalidationsFor e).any fun pattern => keyMatches pattern k

/- ========== Query Cache Coordinator read coalescing ======================== -/

/-- Modelled from the spec: the read-side request de-duplication of the Query
Cache Coordinator (spec 4.3 and 5) is implemented inside the TanStack Query
runtime, which is not part of this repository's sources; only its
configuration (useNodes and the other query hooks) is.  The state of one
cache key under the single-threaded cooperative scheduler: the cached value,
the readers waiting on the single in-flight fetch, and how many underlying
fetch calls have been issued. -/
structure DedupState (V : Type) where
  cached : Option V
  waiting : Option (List ℕ)
  fetchCount : ℕ
deriving DecidableEq

/-- Modelled from the spec: the initial state of a cache key — nothing
cached, no fetch in flight. -/
def DedupState.initial (V : Type) : DedupState V :=
  { cached := none, waiting := none, fetchCount := 0 }

/-- Modelled from the spec: read(key) issued by one reader.  A cached value is
served at once; an in-flight fetch is joined; otherwise a single new fetch is
started. -/
def readStart (reader : ℕ) (s : DedupState V) : DedupState V :=
  match s.cached, s.waiting with
  | some _, _ => s
  | none, some rs => { s with waiting := some (rs ++ [reader]) }
  | none, none => { s with waiting := some [reader], fetchCount := s.fetchCount + 1 }

/-- Modelled from the spec: a burst of concurrent reads issued before the
first fetch resolves, processed in order by the cooperative scheduler. -/
def runReads (readers : List ℕ) (s : DedupState V) : DedupState V :=
  readers.foldl (fun acc r => readStart r acc) s

/-- Modelled from the spec: the in-flight fetch resolves with value `v`; the
value is stored and every waiting reader is delivered `v`. -/
def resolveFetch (v : V) (s : DedupState V) : DedupState V × List (ℕ × V) :=
  match s.waiting with
  | none => (s, [])
  | some rs => ({ s with cached := some v, waiting := none }, rs.map fun r => (r, v))

/-- createApiError's message fallback (axios response interceptor): a body
message wins; otherwise 4xx and 5xx statuses get prefixed axios messages,
network failures a fixed text. -/
def createApiErrorMessage (status : ℕ) (bodyMessage : Option String)
    (networkError : Bool) : String :=
  match bodyMessage with
  | some m => m
  | none =>
    if 400 ≤ status ∧ status < 500 then "Client error: " ++ axiosStatusMessage status
    else if 500 ≤ status then "Server error: " ++ axiosStatusMessage status
    else if networkError then "Network connectivity issue"
    else "An unexpected error occurred"

/- ========== Concrete payloads from the GET /api/assets mock ================ -/

/-- The oil metrics object of facility flowstation-001 in the /api/assets
mock: the feed supplies deferment = 1200 directly, while
businessTarget - currentProduction = 4200 - 3800 = 400. -/
def fsOilRaw : RawNetworkMetrics :=
  { maxCapacity := some 5000, businessTarget := some 4200,
    currentProduction := some 3800, deferment := some 1200,
    unit := some "bbl/d", trend := some Trend.down, changePercent := some (mkRat (-13) 10) }

/-- flowstation-001 as served by the /api/assets mock. -/
def fsRaw : RawFacilityRef :=
  { id := some "flowstation-001", ftype := some FacilityType.flowstation,
    networks := some
      { oil := some fsOilRaw,
        flaredGas := some { maxCapacity := some 800, businessTarget := some 600,
                            currentProduction := some 500, deferment := some 300,
                            unit := some "mcf/d", trend := some Trend.stable,
                            changePercent := some 0 } } }

/-- compressor-001 as served by the /api/assets mock. -/
def compRaw : RawFacilityRef :=
  { id := some "compressor-001", ftype := some FacilityType.compressorStation,
    networks := some
      { domesticGas := some { maxCapacity := some 4000, businessTarget := some 3600,
                              currentProduction := some 3300, deferment := some 700,
                              unit := some "mcf/d", trend := some Trend.down,
                              changePercent := some (mkRat (-12) 10) },
        exportGas := some { maxCapacity := some 6000, businessTarget := some 5200,
                            currentProduction := some 4500, deferment := some 1500,
                            unit := some "mcf/d", trend := some Trend.stable,
                            changePercent := some (mkRat 2 10) },
        flaredGas := some { maxCapacity := some 600, businessTarget := some 400,
                            currentProduction := some 300, deferment := some 200,
                            unit := some "mcf/d", trend := some Trend.down,
                            changePercent := some (mkRat (-2) 10) } } }

/-- gasplant-001 as served by the /api/assets mock. -/
def gasRaw : RawFacilityRef :=
  { id := some "gasplant-001", ftype := some FacilityType.gasPlant,
    networks := some
      { domesticGas := some { maxCapacity := some 4200, businessTarget := some 3800,
                              currentProduction := some 3500, deferment := some 700,
                              unit := some "mcf/d", trend := some Trend.up,
                              changePercent := some (mkRat 5 10) },
        exportGas := some { maxCapacity := some 6500, businessTarget := some 6000,
                            currentProduction := some 5200, deferment := some 1300,
                            unit := some "mcf/d", trend := some Trend.stable,
                            changePercent := some (mkRat 1 10) },
        flaredGas := some { maxCapacity := some 1500, businessTarget := some 1000,
                            currentProduction := some 900, deferment := some 600,
                            unit := some "mcf/d", trend := some Trend.down,
                            changePercent := some (mkRat (-2) 10) } } }

/-- terminal-001 as served by the /api/assets mock: only id and type, no
networks property at all. -/
def terminalRaw : RawFacilityRef :=
  { id := some "terminal-001", ftype := some FacilityType.terminal }

/-- Production unit east-production-unit-01 of the /api/assets mock
(lastUpdated is a wall-clock string at runtime; fixed here). -/
def sokuUnitRaw : RawProductionUnit :=
  { id := some "east-production-unit-01", name := some "Soku Production Unit",
    status := some UnitStatus.online,
    equipmentCount := some 8, activeEquipment := some 7,
    lastUpdated := some "2025-01-01T00:00:00.000Z",
    facilities := some [fsRaw, compRaw, gasRaw, terminalRaw],
    networks := some
      { oil := some fsOilRaw,
        domesticGas := some { maxCapacity := some 4000, businessTarget := some 3600,
                              currentProduction := some 3300, deferment := some 700,
                              unit := some "mcf/d", trend := some Trend.down,
                              changePercent := some (mkRat (-12) 10) },
        exportGas := some { maxCapacity := some 6000, businessTarget := some 5200,
                            currentProduction := some 4500, deferment := some 1500,
                            unit := some "mcf/d", trend := some Trend.stable,
                            changePercent := some (mkRat 2 10) },
        flaredGas := some { maxCapacity := some 1200, businessTarget := some 1000,
                            currentProduction := some 800, deferment := some 400,
                            unit := some "mcf/d", trend := some Trend.up,
                            changePercent := some (mkRat 12 10) } } }

/-- The east asset of the /api/assets mock, restricted to its first
production unit (a faithful sub-payload of the mock response). -/
def eastAssetRaw : RawAssetItem :=
  { id := some AssetId.east, name := some "East Asset",
    status := some AssetStatus.normal,
    performance := some { currentProduction := some 45000, capacity := some 55000,
                          businessTarget := some 50000, deferment := some 5000,
                          trend := some PerfTrend.stable, changePercent := some (mkRat 21 10) },
    productionUnits := some [sokuUnitRaw],
    summary := some { totalUnits := some 12, activeUnits := some 11, offlineUnits := some 1 },
    constraints := some { active := some 2, critical := some 0, warning := some 2 } }

/-- A hierarchy payload as delivered by the /api/assets mock (after the
response interceptor unwraps the SecureApiResponse envelope). -/
def eastAssetsPayload : RawAssetsResponse :=
  { assets := some [eastAssetRaw],
    comparison := some { productionDifference := some 7000, trend := some "east_leading" },
    timestamp := some "2025-01-01T00:00:00.000Z" }

/-- The same payload with flowstation-001's required `type` field removed:
the shape §4.1 of the spec says must be dropped with a warning. -/
def typelessFacilityPayload : RawAssetsResponse :=
  { assets := some
      [ { eastAssetRaw with
          productionUnits := some
            [ { sokuUnitRaw with
                facilities := some
                  [ { fsRaw with ftype := none }, compRaw, gasRaw, terminalRaw ] } ] } ],
    comparison := some { productionDifference := some 7000, trend := some "east_leading" },
    timestamp := some "2025-01-01T00:00:00.000Z" }

/- ========== Derived definitions used by the verified properties ============ -/

/-- The canonical deferment equation of the spec:
deferment = max(0, businessTarget - currentProduction). -/
def defermentInvariant (m : NetworkMetrics) : Prop :=
  m.deferment = max 0 (m.businessTarget - m.currentProduction)

/-- All network metric entries of all facilities of a parsed hierarchy. -/
def facilityNetworkEntries (resp : AssetsResponse) : List NetworkMetrics :=
  resp.assets.flatMap fun a =>
    a.productionUnits.flatMap fun u =>
      u.facilities.flatMap fun f =>
        [f.networks.oil, f.networks.domesticGas,
         f.networks.exportGas, f.networks.flaredGas].filterMap id

/-- The claim that ingestion normalisation leaves every facility network
entry satisfying the canonical deferment equation. -/
def defermentClaim : Prop :=
  ∀ raw resp, parseAssetsResponse raw = some resp →
    ∀ m ∈ facilityNetworkEntries resp, defermentInvariant m

/-- The oil entry of flowstation-001 as it sits in the cache after ingestion
of the /api/assets payload. -/
def fsOilParsed : NetworkMetrics :=
  { maxCapacity := 5000, businessTarget := 4200, currentProduction := 3800,
    deferment := 1200, unit := "bbl/d", trend := Trend.down, changePercent := mkRat (-13) 10 }

/-- The source feed supplied no flaredGas entry in this networks object. -/
def noFlaredGasSupplied : Option RawNetworks → Prop
  | none => True
  | some raw => raw.flaredGas = none

/-- The parsed networks object of terminal-001 (no networks in the feed). -/
def terminalParsedNetworks : FacilityNetworks :=
  { oil := none, domesticGas := none, exportGas := none,
    flaredGas := some DEFAULT_FLARED_GAS_METRICS }

/-- A representative optimisation action used to exercise the mutation
transforms on concrete caches. -/
def sampleOpt (i : String) (st : OptStatus) : OptimisationAction :=
  { id := i, stream := StreamType.oil, atype := OptActionType.pressureAdjust,
    title := "Adjust wellhead pressure", description := "Reduce choke",
    impact := { estimatedGain := 2500, unit := "bbl/d", confidence := 85,
                timeframe := "2 weeks" },
    implementation := { effort := Effort.low, requiredSkills := ["production-engineering"],
                        estimatedDuration := "3 days" },
    affectedNodes := ["east-well-001"], status := st, priority := 7,
    createdAt := "2025-01-01T00:00:00.000Z", validUntil := "2025-02-01T00:00:00.000Z" }

/-- A representative cached OptimisationResponse. -/
def sampleResponse : OptimisationResponse :=
  { optimisations := [sampleOpt "opt-1" OptStatus.pending, sampleOpt "opt-2" OptStatus.pending],
    summary := { total := 2, pending := 2, acknowledged := 0, implemented := 0,
                 totalPotentialValue := 5000 } }

/-- A representative query cache: two optimisations collections that both
contain opt-1, plus an unrelated entry and a not-yet-resolved entry. -/
def sampleCache : OptCache :=
  [ (["optimisations", "all"], some sampleResponse),
    (["optimisations", "asset", "east"], some sampleResponse),
    (["optimisations", "empty"], none),
    (["nodes"], none) ]

/-- A system_alert push event that names an affected asset but no
optimisation ids (the handler has no optimisation-id field to name). -/
def sysAlertWest : OptimisationEvent :=
  { etype := EventType.systemAlert, affectedAssets := some [AssetId.west] }

/-- A system_alert push event with no affected assets. -/
def sysAlertPlain : OptimisationEvent :=
  { etype := EventType.systemAlert }

/- ===================== Helper lemmas ====================================== -/

/-- Every element of a successfully parsed array comes from parsing some
element of the raw array. -/
theorem parseArray_mem_inv {α β : Type} {f : α → Option β} :
    ∀ {l : List α} {l2 : List β}, parseArray f l = some l2 →
      ∀ b ∈ l2, ∃ a ∈ l, f a = some b := by
  intro l
  induction l with
  | nil =>
    intro l2 h b hb
    simp [parseArray] at h
    subst h
    simp at hb
  | cons a as ih =>
    intro l2 h b hb
    cases hfa : f a with
    | none => simp [parseArray, hfa] at h
    | some b0 =>
      cases hrest : parseArray f as with
      | none => simp [parseArray, hfa, hrest] at h
      | some bs =>
        simp only [parseArray, hfa, hrest, Option.bind_eq_bind, Option.some_bind,
          Option.pure_def, Option.some.injEq] at h
        subst h
        rcases List.mem_cons.mp hb with hb | hb
        · exact ⟨a, List.mem_cons_self a as, hb ▸ hfa⟩
        · obtain ⟨a2, ha2, hfa2⟩ := ih hrest b hb
          exact ⟨a2, List.mem_cons_of_mem a ha2, hfa2⟩

/-- A successfully parsed networks object always carries a flaredGas entry. -/
theorem parseNetworksObj_flared_isSome {r : Option RawNetworks} {nets : FacilityNetworks}
    (h : parseNetworksObj r = some nets) : nets.flaredGas.isSome := by
  cases r with
  | none =>
    simp [parseNetworksObj] at h
    subst h
    rfl
  | some raw =>
    cases ho : parseOptMetrics raw.oil with
    | none => simp [parseNetworksObj, ho] at h
    | some o =>
      cases hd : parseOptMetrics raw.domesticGas with
      | none => simp [parseNetworksObj, ho, hd] at h
      | some d =>
        cases he : parseOptMetrics raw.exportGas with
        | none => simp [parseNetworksObj, ho, hd, he] at h
        | some e =>
          cases hg : parseOptMetrics raw.flaredGas with
          | none => simp [parseNetworksObj, ho, hd, he, hg] at h
          | some g =>
            simp only [parseNetworksObj, ho, hd, he, hg, Option.bind_eq_bind,
              Option.some_bind, Option.pure_def, Option.some.injEq] at h
            subst h
            rfl

/-- When the feed supplies no flaredGas, the parsed entry is the documented
zero-value default. -/
theorem parseNetworksObj_flared_default {r : Option RawNetworks} {nets : FacilityNetworks}
    (h : parseNetworksObj r = some nets) (habs : noFlaredGasSupplied r) :
    nets.flaredGas = some DEFAULT_FLARED_GAS_METRICS := by
  cases r with
  | none =>
    simp [parseNetworksObj] at h
    subst h
    rfl
  | some raw =>
    have hraw : raw.flaredGas = none := habs
    cases ho : parseOptMetrics raw.oil with
    | none => simp [parseNetworksObj, ho] at h
    | some o =>
      cases hd : parseOptMetrics raw.domesticGas with
      | none => simp [parseNetworksObj, ho, hd] at h
      | some d =>
        cases he : parseOptMetrics raw.exportGas with
        | none => simp [parseNetworksObj, ho, hd, he] at h
        | some e =>
          have hg : parseOptMetrics raw.flaredGas = some none := by
            rw [hraw]
            rfl
          simp only [parseNetworksObj, ho, hd, he, hg, Option.bind_eq_bind,
            Option.some_bind, Option.pure_def, Option.some.injEq] at h
          subst h
          rfl

/-- The networks of a parsed facility come from parsing its raw networks. -/
theorem parseFacilityRef_networks {r : RawFacilityRef} {f : FacilityRef}
    (h : parseFacilityRef r = some f) :
    parseNetworksObj r.networks = some f.networks := by
  simp only [parseFacilityRef, Option.bind_eq_bind, Option.bind_eq_some,
    Option.pure_def, Option.some.injEq] at h
  obtain ⟨i, hi, t, ht, nets, hnets, hf⟩ := h
  subst hf
  exact hnets

/-- The networks of a parsed production unit come from parsing its raw
networks. -/
theorem parseProductionUnit_networks {r : RawProductionUnit} {u : ProductionUnit}
    (h : parseProductionUnit r = some u) :
    parseNetworksObj r.networks = some u.networks := by
  simp only [parseProductionUnit, Option.bind_eq_bind, Option.bind_eq_some,
    Option.pure_def, Option.some.injEq] at h
  obtain ⟨i, hi, n, hn, ec, hec, ae, hae, lu, hlu, facs, hfacs, nets, hnets, hu⟩ := h
  subst hu
  exact hnets

/-- Every facility of a parsed production unit comes from parsing a raw
facility of the unit. -/
theorem parseProductionUnit_facilities {r : RawProductionUnit} {u : ProductionUnit}
    (h : parseProductionUnit r = some u) :
    ∀ f ∈ u.facilities, ∃ rf ∈ r.facilities.getD [], parseFacilityRef rf = some f := by
  simp only [parseProductionUnit, Option.bind_eq_bind, Option.bind_eq_some,
    Option.pure_def, Option.some.injEq] at h
  obtain ⟨i, hi, n, hn, ec, hec, ae, hae, lu, hlu, facs, hfacs, nets, hnets, hu⟩ := h
  subst hu
  exact parseArray_mem_inv hfacs

/-- Every production unit of a parsed asset comes from parsing a raw unit of
the asset. -/
theorem parseAssetItem_units {r : RawAssetItem} {a : AssetItem}
    (h : parseAssetItem r = some a) :
    ∀ u ∈ a.productionUnits, ∃ ru ∈ r.productionUnits.getD [], parseProductionUnit ru = some u := by
  simp only [parseAssetItem, Option.bind_eq_bind, Option.bind_eq_some,
    Option.pure_def, Option.some.injEq] at h
  obtain ⟨i, hi, n, hn, pr, hpr, perf, hperf, units, hunits, sr, hsr, sm, hsm,
    cr, hcr, con, hcon, ha⟩ := h
  subst ha
  exact parseArray_mem_inv hunits

/-- Every asset of a parsed assets response comes from parsing a raw asset of
the payload. -/
theorem parseAssetsResponse_assets {raw : RawAssetsResponse} {resp : AssetsResponse}
    (h : parseAssetsResponse raw = some resp) :
    ∀ a ∈ resp.assets, ∃ ra ∈ raw.assets.getD [], parseAssetItem ra = some a := by
  simp only [parseAssetsResponse, Option.bind_eq_bind, Option.bind_eq_some,
    Option.pure_def, Option.some.injEq] at h
  obtain ⟨ras, hras, assets, hassets, comp, hcomp, ts, hts, hresp⟩ := h
  subst hresp
  intro a ha
  obtain ⟨ra, hra, hpa⟩ := parseArray_mem_inv hassets a ha
  exact ⟨ra, by simp [hras, hra], hpa⟩

/- ===================== C1 ================================================= -/

/-- C1 (counterexample): it is not the case that after ingestion
normalisation every Facility Network metrics entry satisfies
deferment = max(0, businessTarget - currentProduction).  The /api/assets
feed supplies flowstation-001's oil metrics with deferment 1200 while
businessTarget - currentProduction = 4200 - 3800 = 400; ingestion accepts
the payload and stores deferment = 1200 unchanged. -/
theorem c1_deferment_claim_refuted : ¬ defermentClaim := by
  intro h
  have hchk : (parseAssetsResponse eastAssetsPayload).map
      (fun resp => decide (fsOilParsed ∈ facilityNetworkEntries resp)) = some true := by
    decide
  cases hp : parseAssetsResponse eastAssetsPayload with
  | none => rw [hp] at hchk; exact Option.noConfusion hchk
  | some resp =>
    rw [hp] at hchk
    simp only [Option.map_some', Option.some.injEq] at hchk
    have hmem : fsOilParsed ∈ facilityNetworkEntries resp := of_decide_eq_true hchk
    have hinv := h eastAssetsPayload resp hp fsOilParsed hmem
    have hfalse : ¬ defermentInvariant fsOilParsed := by
      simp only [defermentInvariant, fsOilParsed]
      norm_num
    exact hfalse hinv

/-- C1 (amended): ingestion normalisation only checks a supplied deferment
for non-negativity and defaults a missing one to 0; it preserves the feed's
deferment verbatim and neither validates it against nor recomputes it as
max(0, businessTarget - currentProduction). -/
theorem c1_deferment_preserved (r : RawNetworkMetrics) (m : NetworkMetrics)
    (h : parseNetworkMetrics r = some m) :
    m.deferment = r.deferment.getD 0 ∧ 0 ≤ m.deferment := by
  simp only [parseNetworkMetrics, Option.bind_eq_bind, Option.bind_eq_some,
    Option.pure_def, Option.some.injEq] at h
  obtain ⟨mc, hmc, bt, hbt, cp, hcp, df, hdf, hm⟩ := h
  subst hm
  cases hr : r.deferment with
  | none =>
    rw [hr] at hdf
    simp [parseNonneg] at hdf
    simp [← hdf]
  | some x =>
    rw [hr] at hdf
    simp only [parseNonneg] at hdf
    by_cases hx : 0 ≤ x
    · rw [if_pos hx] at hdf
      cases hdf
      simpa using hx
    · rw [if_neg hx] at hdf
      cases hdf

/-- C1 witness: the amended statement at the concrete flowstation-001 oil
metrics of the /api/assets feed. -/
theorem c1_deferment_preserved_witness :
    fsOilParsed.deferment = fsOilRaw.deferment.getD 0 ∧ (0 : ℚ) ≤ fsOilParsed.deferment :=
  c1_deferment_preserved fsOilRaw fsOilParsed (by decide)

/- ===================== C2 ================================================= -/

/-- C2: for every networks object accepted by ingestion the parsed value
carries a flaredGas entry, equal to the documented zero-value default
{0,0,0,0,'mcf/d','stable',0} whenever the feed supplied none; consequently
every Production Unit and every Facility of every accepted hierarchy payload
exposes a flaredGas network entry. -/
theorem c2_flared_gas_always_present :
    (∀ r nets, parseNetworksObj r = some nets →
       nets.flaredGas.isSome = true ∧
       (noFlaredGasSupplied r → nets.flaredGas = some DEFAULT_FLARED_GAS_METRICS)) ∧
    (∀ raw resp, parseAssetsResponse raw = some resp →
       ∀ a ∈ resp.assets, ∀ u ∈ a.productionUnits,
         u.networks.flaredGas.isSome = true ∧
         ∀ f ∈ u.facilities, f.networks.flaredGas.isSome = true) := by
  constructor
  · intro r nets h
    exact ⟨parseNetworksObj_flared_isSome h,
           fun habs => parseNetworksObj_flared_default h habs⟩
  · intro raw resp hresp a ha u hu
    obtain ⟨ra, hra, hpa⟩ := parseAssetsResponse_assets hresp a ha
    obtain ⟨ru, hru, hpu⟩ := parseAssetItem_units hpa u hu
    refine ⟨parseNetworksObj_flared_isSome (parseProductionUnit_networks hpu), ?_⟩
    intro f hf
    obtain ⟨rf, hrf, hpf⟩ := parseProductionUnit_facilities hpu f hf
    exact parseNetworksObj_flared_isSome (parseFacilityRef_networks hpf)

/-- C2 witness: terminal-001 of the /api/assets feed has no networks
property; its parsed networks object is exactly the zero-value default. -/
theorem c2_flared_gas_always_present_witness :
    terminalParsedNetworks.flaredGas = some DEFAULT_FLARED_GAS_METRICS ∧
    parseNetworksObj terminalRaw.networks = some terminalParsedNetworks :=
  ⟨(c2_flared_gas_always_present.1 terminalRaw.networks terminalParsedNetworks
      (by decide)).2 trivial,
   by decide⟩

/- ===================== C8 ================================================= -/

/-- A facility without its required type fails FacilityRefSchema. -/
theorem parseFacilityRef_none_of_no_type {r : RawFacilityRef} (h : r.ftype = none) :
    parseFacilityRef r = none := by
  cases hid : r.id with
  | none => simp [parseFacilityRef, hid]
  | some i => simp [parseFacilityRef, hid, h]

/-- An array with an unparseable element fails as a whole. -/
theorem parseArray_none_of_mem {α β : Type} {f : α → Option β} {l : List α} {a : α}
    (ha : a ∈ l) (hf : f a = none) : parseArray f l = none := by
  induction l with
  | nil => cases ha
  | cons x xs ih =>
    rcases List.mem_cons.mp ha with rfl | ha2
    · simp [parseArray, hf]
    · cases hx : f x with
      | none => simp [parseArray, hx]
      | some b => simp [parseArray, hx, ih ha2]

/-- A production unit containing a typeless facility fails as a whole. -/
theorem parseProductionUnit_none_of_bad {u : RawProductionUnit}
    (hbad : ∃ f ∈ u.facilities.getD [], f.ftype = none) :
    parseProductionUnit u = none := by
  obtain ⟨f, hf, hn⟩ := hbad
  have harr : parseArray parseFacilityRef (u.facilities.getD []) = none :=
    parseArray_none_of_mem hf (parseFacilityRef_none_of_no_type hn)
  cases hp : parseProductionUnit u with
  | none => rfl
  | some p =>
    exfalso
    simp only [parseProductionUnit, Option.bind_eq_bind, Option.bind_eq_some,
      Option.pure_def, Option.some.injEq] at hp
    obtain ⟨i, hi, n, hn2, ec, hec, ae, hae, lu, hlu, facs, hfacs, nets, hnets, hu⟩ := hp
    rw [harr] at hfacs
    exact Option.noConfusion hfacs

/-- An asset containing a typeless facility fails as a whole. -/
theorem parseAssetItem_none_of_bad {r : RawAssetItem}
    (hbad : ∃ u ∈ r.productionUnits.getD [], ∃ f ∈ u.facilities.getD [], f.ftype = none) :
    parseAssetItem r = none := by
  obtain ⟨u, hu, hf⟩ := hbad
  have harr : parseArray parseProductionUnit (r.productionUnits.getD []) = none :=
    parseArray_none_of_mem hu (parseProductionUnit_none_of_bad hf)
  cases hp : parseAssetItem r with
  | none => rfl
  | some a =>
    exfalso
    simp only [parseAssetItem, Option.bind_eq_bind, Option.bind_eq_some,
      Option.pure_def, Option.some.injEq] at hp
    obtain ⟨i, hi, n, hn, pr, hpr, perf, hperf, units, hunits, sr, hsr, sm, hsm,
      cr, hcr, con, hcon, ha⟩ := hp
    rw [harr] at hunits
    exact Option.noConfusion hunits

/-- C8 (counterexample): removing the required `type` of one facility makes
ingestion reject the entire payload (zod .parse throws); the entity is not
dropped, no warning-bearing partial hierarchy is returned, while the same
payload with the type present parses fine. -/
theorem c8_graceful_degradation_counterexample :
    parseAssetsResponse typelessFacilityPayload = none ∧
    (parseAssetsResponse eastAssetsPayload).isSome = true := by
  exact ⟨by decide, by decide⟩

/-- C8 (amended): validation is all-or-nothing — any payload in which some
facility lacks its required type is rejected wholesale by
AssetsResponseSchema.parse; the fetch surfaces the validation error and no
partial tree with dropped entities is produced. -/
theorem c8_missing_type_rejects_payload (raw : RawAssetsResponse)
    (hbad : ∃ a ∈ raw.assets.getD [], ∃ u ∈ a.productionUnits.getD [],
        ∃ f ∈ u.facilities.getD [], f.ftype = none) :
    parseAssetsResponse raw = none := by
  obtain ⟨a, ha, hrest⟩ := hbad
  have han : parseAssetItem a = none := parseAssetItem_none_of_bad hrest
  cases hras : raw.assets with
  | none => simp [parseAssetsResponse, hras]
  | some ras =>
    have ha2 : a ∈ ras := by rw [hras] at ha; simpa using ha
    have harr : parseArray parseAssetItem ras = none := parseArray_none_of_mem ha2 han
    cases hp : parseAssetsResponse raw with
    | none => rfl
    | some resp =>
      exfalso
      simp only [parseAssetsResponse, Option.bind_eq_bind, Option.bind_eq_some,
        Option.pure_def, Option.some.injEq] at hp
      obtain ⟨ras2, hras2, assets, hassets, comp, hcomp, ts, hts, hresp⟩ := hp
      rw [hras] at hras2
      injection hras2 with hras3
      subst hras3
      rw [harr] at hassets
      exact Option.noConfusion hassets

/-- C8 witness: the amended statement at the concrete typeless-facility
payload. -/
theorem c8_missing_type_rejects_payload_witness :
    parseAssetsResponse typelessFacilityPayload = none :=
  c8_missing_type_rejects_payload typelessFacilityPayload (by decide)

/- ============ Bridge lemmas for the computable rational operations ========= -/

/-- ratMul is ordinary rational multiplication. -/
theorem ratMul_eq_mul (a b : ℚ) : ratMul a b = a * b := by
  rw [ratMul, Rat.mkRat_eq_div]
  push_cast
  conv_rhs => rw [← Rat.num_div_den a, ← Rat.num_div_den b]
  rw [div_mul_div_comm]

/-- ratAdd is ordinary rational addition. -/
theorem ratAdd_eq_add (a b : ℚ) : ratAdd a b = a + b := by
  rw [ratAdd, Rat.mkRat_eq_div]
  push_cast
  conv_rhs => rw [← Rat.num_div_den a, ← Rat.num_div_den b]
  rw [div_add_div _ _ (by exact_mod_cast a.den_nz) (by exact_mod_cast b.den_nz)]
  ring_nf

/-- jsDiv is ordinary rational (field) division. -/
theorem jsDiv_eq_div (a b : ℚ) : jsDiv a b = a / b := by
  rw [jsDiv, Rat.mkRat_eq_div]
  rcases lt_trichotomy b.num 0 with hb | hb | hb
  · have hs : b.num.sign = -1 := Int.sign_eq_neg_one_iff_neg.mpr hb
    have habs : ((b.num.natAbs : ℚ)) = -(b.num : ℚ) := by
      rw [Int.cast_natAbs]
      exact_mod_cast abs_of_neg hb
    have hbn : (b.num : ℚ) ≠ 0 := by exact_mod_cast ne_of_lt hb
    have had : (a.den : ℚ) ≠ 0 := by exact_mod_cast a.den_nz
    have hbd : (b.den : ℚ) ≠ 0 := by exact_mod_cast b.den_nz
    rw [hs]
    push_cast
    rw [habs]
    conv_rhs => rw [← Rat.num_div_den a, ← Rat.num_div_den b]
    field_simp
  · have hb0 : b = 0 := Rat.num_eq_zero.mp hb
    rw [hb0]
    simp
  · have hs : b.num.sign = 1 := Int.sign_eq_one_iff_pos.mpr hb
    have habs : ((b.num.natAbs : ℚ)) = (b.num : ℚ) := by
      rw [Int.cast_natAbs]
      exact_mod_cast abs_of_pos hb
    have hbn : (b.num : ℚ) ≠ 0 := by exact_mod_cast (ne_of_gt hb)
    have had : (a.den : ℚ) ≠ 0 := by exact_mod_cast a.den_nz
    have hbd : (b.den : ℚ) ≠ 0 := by exact_mod_cast b.den_nz
    rw [hs]
    push_cast
    rw [habs]
    conv_rhs => rw [← Rat.num_div_den a, ← Rat.num_div_den b]
    field_simp

/-- Rat.floor is the floor of the order structure on ℚ. -/
theorem ratFloor_eq_floor (q : ℚ) : Rat.floor q = ⌊q⌋ :=
  (Rat.floor_def' q).trans Rat.floor_def.symm

/-- The computable gapPercentage agrees with the source formula
capacity > 0 ? lost / capacity * 100 : 0. -/
theorem gapPercentage_eq (lost capacity : ℚ) :
    gapPercentage lost capacity =
      if 0 < capacity then lost / capacity * 100 else 0 := by
  simp only [gapPercentage, ratMul_eq_mul, jsDiv_eq_div]

/-- The computable jsToFixed1 agrees with round-half-up at one decimal. -/
theorem jsToFixed1_eq (q : ℚ) : jsToFixed1 q = (⌊q * 10 + 1 / 2⌋ : ℚ) / 10 := by
  simp only [jsToFixed1, ratAdd_eq_add, ratMul_eq_mul, ratFloor_eq_floor,
    Rat.mkRat_eq_div]
  push_cast
  ring_nf

/- ===================== C4 ================================================= -/

/-- C4: the Gap Driver Engine computes percentage = deferment / maxCapacity *
100 (0 when maxCapacity is 0) and buckets priority at the 30/20/10 thresholds;
every driver it emits carries precisely these derived fields; in particular
deferment 12000 over maxCapacity 50000 gives 24.0 and 'high', 32 gives
'critical' and 5 gives 'low', as reflected by the flowstation-002 driver of
the actual response. -/
theorem c4_percentage_priority_thresholds :
    (∀ lost : ℚ, gapPercentage lost 0 = 0) ∧
    (∀ lost capacity : ℚ, 0 < capacity →
        gapPercentage lost capacity = lost / capacity * 100) ∧
    (∀ p : ℚ, 30 ≤ p → priorityOf p = Priority.critical) ∧
    (∀ p : ℚ, 20 ≤ p → p < 30 → priorityOf p = Priority.high) ∧
    (∀ p : ℚ, 10 ≤ p → p < 20 → priorityOf p = Priority.medium) ∧
    (∀ p : ℚ, p < 10 → priorityOf p = Priority.low) ∧
    (∀ a uid fac key m d, mkDriver a uid fac key m = some d →
        d.priority = priorityOf (gapPercentage
          ((max 0 (Rat.floor (m.deferment.getD 0)) : ℤ) : ℚ)
          (m.maxCapacity.getD (if key = NetworkKey.oil then 5000 else 50000))) ∧
        d.percentage = jsToFixed1 (gapPercentage
          ((max 0 (Rat.floor (m.deferment.getD 0)) : ℤ) : ℚ)
          (m.maxCapacity.getD (if key = NetworkKey.oil then 5000 else 50000)))) ∧
    (gapPercentage 12000 50000 = 24 ∧
     priorityOf (gapPercentage 12000 50000) = Priority.high ∧
     priorityOf 32 = Priority.critical ∧ priorityOf 5 = Priority.low) ∧
    ((gapDriversResponse none).filter (fun d => d.nodeId = "flowstation-002")).map
        (fun d => (d.percentage, d.priority)) = [(24, Priority.high)] := by
  refine ⟨?_, ?_, ?_, ?_, ?_, ?_, ?_, ⟨by decide, by decide, by decide, by decide⟩, by decide⟩
  · intro lost
    simp [gapPercentage]
  · intro lost capacity h
    rw [gapPercentage_eq, if_pos h]
  · intro p h
    rw [priorityOf, if_pos h]
  · intro p h1 h2
    rw [priorityOf, if_neg (by linarith), if_pos h1]
  · intro p h1 h2
    rw [priorityOf, if_neg (by linarith), if_neg (by linarith), if_pos h1]
  · intro p h
    rw [priorityOf, if_neg (by linarith), if_neg (by linarith), if_neg (by linarith)]
  · intro a uid fac key m d h
    cases key with
    | flaredGas => exact Option.noConfusion h
    | oil =>
      simp only [mkDriver, toStreamType] at h
      split at h
      · exact Option.noConfusion h
      · injection h with h2
        subst h2
        exact ⟨rfl, rfl⟩
    | domesticGas =>
      simp only [mkDriver, toStreamType] at h
      split at h
      · exact Option.noConfusion h
      · injection h with h2
        subst h2
        exact ⟨rfl, rfl⟩
    | exportGas =>
      simp only [mkDriver, toStreamType] at h
      split at h
      · exact Option.noConfusion h
      · injection h with h2
        subst h2
        exact ⟨rfl, rfl⟩

/-- C4 witness: the formulas at the spec's concrete numbers. -/
theorem c4_witness :
    gapPercentage 12000 50000 = (12000 : ℚ) / 50000 * 100 ∧
    priorityOf (gapPercentage 12000 50000) = Priority.high ∧
    priorityOf 32 = Priority.critical :=
  ⟨c4_percentage_priority_thresholds.2.1 12000 50000 (by norm_num),
   c4_percentage_priority_thresholds.2.2.2.1 (gapPercentage 12000 50000)
     (by rw [c4_percentage_priority_thresholds.2.2.2.2.2.2.2.1.1]; norm_num)
     (by rw [c4_percentage_priority_thresholds.2.2.2.2.2.2.2.1.1]; norm_num),
   c4_percentage_priority_thresholds.2.2.1 32 (by norm_num)⟩

/- ===================== C6 ================================================= -/

/-- C6 (counterexample): with no asset filter the engine computes 20 drivers,
sorts all 20, yet the handler returns only 12 — the truncation is a fixed
drivers.slice(0, 12), not a caller-requested limit defaulting to unlimited
(the endpoint has no row-limit parameter at all). -/
theorem c6_fixed_truncation_counterexample :
    (collectDrivers none).length = 20 ∧
    (sortByLostDesc (collectDrivers none)).length = 20 ∧
    (gapDriversResponse none).length = 12 := by
  exact ⟨by decide, by decide, by decide⟩

/-- C6 (amended): for every asset filter the handler's list is sorted in
descending order of lostProduction and truncated to the top 12 by a fixed
cap; an empty list would be returned as an ordinary (non-error) value since
the response function is total. -/
theorem c6_sorted_desc_and_capped :
    ∀ f : Option AssetId,
      List.Sorted (fun a b : ℤ => b ≤ a)
        ((gapDriversResponse f).map (fun d => d.lostProduction)) ∧
      (gapDriversResponse f).length = min 12 (collectDrivers f).length := by
  intro f
  rcases f with _ | a
  · exact ⟨by decide, by decide⟩
  · cases a
    · exact ⟨by decide, by decide⟩
    · exact ⟨by decide, by decide⟩

/- ===================== C3 ================================================= -/

/-- Every snapshotted entry is an entry of the cache. -/
theorem getQueriesData_sub {p : QueryKey} {c : OptCache} :
    ∀ s ∈ getQueriesData p c, s ∈ c :=
  fun _ hs => (List.mem_filter.mp hs).1

/-- An exact-key write to a cache not containing the key is a no-op. -/
theorem setQueryData_not_mem (k : QueryKey) (v : Option OptimisationResponse)
    (c : OptCache) (h : k ∉ c.map Prod.fst) : setQueryData k v c = c := by
  cases v with
  | none => rfl
  | some w =>
    induction c with
    | nil => rfl
    | cons e rest ih =>
      simp only [List.map_cons, List.mem_cons] at h
      push_neg at h
      simp only [setQueryData, List.map_cons]
      rw [if_neg (fun hh => h.1 hh.symm)]
      exact congrArg (e :: ·) (ih h.2)

/-- Restoring keys absent from the head entry leaves the head in place. -/
theorem rollback_cons_skip (snap : List (QueryKey × Option OptimisationResponse))
    (e : QueryKey × Option OptimisationResponse) (c : OptCache)
    (h : ∀ s ∈ snap, s.1 ≠ e.1) :
    rollback snap (e :: c) = e :: rollback snap c := by
  induction snap generalizing c with
  | nil => rfl
  | cons s rest ih =>
    have hse : setQueryData s.1 s.2 (e :: c) = e :: setQueryData s.1 s.2 c := by
      cases hv : s.2 with
      | none => rfl
      | some w =>
        simp only [setQueryData, List.map_cons]
        rw [if_neg (fun hh => (h s (List.mem_cons_self s rest)) hh.symm)]
    simp only [rollback, List.foldl_cons] at *
    rw [hse]
    exact ih (setQueryData s.1 s.2 c) (fun s2 hs2 => h s2 (List.mem_cons_of_mem s hs2))

/-- The optimistic rewrite does not change cache keys. -/
theorem setQueriesData_keys (p : QueryKey)
    (f : Option OptimisationResponse → Option OptimisationResponse) (c : OptCache) :
    (setQueriesData p f c).map Prod.fst = c.map Prod.fst := by
  induction c with
  | nil => rfl
  | cons e rest ih =>
    simp only [setQueriesData, List.map_cons] at *
    by_cases hm : keyMatches p e.1
    · rw [if_pos hm]
      simpa using ih
    · rw [if_neg hm]
      simpa using ih

/-- The snapshot/rollback protocol of the mutation hooks: restoring every
snapshotted entry after an optimistic rewrite that leaves undefined entries
alone reproduces the original cache exactly, whenever cache keys are unique. -/
theorem rollback_restores (pattern : QueryKey)
    (f : Option OptimisationResponse → Option OptimisationResponse)
    (hf : f none = none) :
    ∀ c : OptCache, (c.map Prod.fst).Nodup →
      rollback (getQueriesData pattern c) (setQueriesData pattern f c) = c := by
  intro c
  induction c with
  | nil => intro _; rfl
  | cons e rest ih =>
    obtain ⟨k, v⟩ := e
    intro hnodup
    simp only [List.map_cons, List.nodup_cons] at hnodup
    obtain ⟨hke, hnd⟩ := hnodup
    have hsnapkeys : ∀ s ∈ getQueriesData pattern rest, s.1 ≠ k := by
      intro s hs heq
      exact hke (heq ▸ (List.mem_map_of_mem Prod.fst (getQueriesData_sub s hs)))
    by_cases hm : keyMatches pattern k
    · have hg : getQueriesData pattern ((k, v) :: rest)
          = (k, v) :: getQueriesData pattern rest := by
        simp [getQueriesData, List.filter_cons, hm]
      have hs : setQueriesData pattern f ((k, v) :: rest)
          = (k, f v) :: setQueriesData pattern f rest := by
        simp [setQueriesData, hm]
      rw [hg, hs]
      show rollback (getQueriesData pattern rest)
          (setQueryData k v ((k, f v) :: setQueriesData pattern f rest))
          = (k, v) :: rest
      cases v with
      | none =>
        rw [hf]
        show rollback (getQueriesData pattern rest)
            ((k, none) :: setQueriesData pattern f rest) = (k, none) :: rest
        rw [rollback_cons_skip _ _ _ hsnapkeys]
        rw [ih hnd]
      | some w =>
        have hset : setQueryData k (some w) ((k, f (some w)) :: setQueriesData pattern f rest)
            = (k, some w) :: setQueriesData pattern f rest := by
          have hnotin : k ∉ (setQueriesData pattern f rest).map Prod.fst := by
            rw [setQueriesData_keys]
            exact hke
          have htail := setQueryData_not_mem k (some w) (setQueriesData pattern f rest) hnotin
          simp only [setQueryData] at htail ⊢
          simp only [List.map_cons, if_true]
          rw [htail]
        rw [hset, rollback_cons_skip _ _ _ hsnapkeys, ih hnd]
    · have hg : getQueriesData pattern ((k, v) :: rest)
          = getQueriesData pattern rest := by
        simp [getQueriesData, List.filter_cons, hm]
      have hs : setQueriesData pattern f ((k, v) :: rest)
          = (k, v) :: setQueriesData pattern f rest := by
        simp [setQueriesData, hm]
      rw [hg, hs, rollback_cons_skip _ _ _ hsnapkeys, ih hnd]

/-- C3: the optimistic acknowledge of action X rewrites every cached
optimisations collection synchronously — after onMutate every matching cache
entry shows X (when present) with status 'acknowledged' — and replaying the
snapshot through onError's setQueryData loop restores the entire cache
verbatim (full rollback), provided cache keys are unique, as they are in the
query client. -/
theorem c3_ack_optimistic_then_rollback (c : OptCache)
    (hkeys : (c.map Prod.fst).Nodup) (X now : String) :
    (∀ k v, (k, some v) ∈ (ackOnMutate X now c).2 →
        keyMatches ["optimisations"] k = true →
        ∀ opt ∈ v.optimisations, opt.id = X → opt.status = OptStatus.acknowledged) ∧
    rollback (ackOnMutate X now c).1 (ackOnMutate X now c).2 = c := by
  constructor
  · intro k v hmem hk opt hopt hid
    simp only [ackOnMutate, setQueriesData, List.mem_map] at hmem
    obtain ⟨e, he, heq⟩ := hmem
    by_cases hm : keyMatches ["optimisations"] e.1
    · rw [if_pos hm] at heq
      rw [Prod.ext_iff] at heq
      obtain ⟨hk1, hv⟩ := heq
      cases he2 : e.2 with
      | none =>
        rw [he2] at hv
        exact Option.noConfusion hv
      | some old =>
        rw [he2] at hv
        simp only [ackUpdater, Option.some.injEq] at hv
        subst hv
        simp only [List.mem_map] at hopt
        obtain ⟨o0, ho0, hoeq⟩ := hopt
        by_cases hido : o0.id = X
        · rw [if_pos hido] at hoeq
          rw [← hoeq]
        · rw [if_neg hido] at hoeq
          subst hoeq
          exact absurd hid hido
    · rw [if_neg hm] at heq
      rw [Prod.ext_iff] at heq
      exact absurd (heq.1 ▸ hk) hm
  · exact rollback_restores ["optimisations"] (ackUpdater X now) rfl c hkeys

/-- C3 witness: the rollback identity on a concrete cache with two
optimisations collections containing opt-1, an unresolved entry and an
unrelated entry. -/
theorem c3_ack_optimistic_then_rollback_witness :
    (sampleCache.map Prod.fst).Nodup ∧
    rollback (ackOnMutate "opt-1" "2025-01-02T00:00:00.000Z" sampleCache).1
      (ackOnMutate "opt-1" "2025-01-02T00:00:00.000Z" sampleCache).2 = sampleCache :=
  ⟨by decide,
   (c3_ack_optimistic_then_rollback sampleCache (by decide) "opt-1"
      "2025-01-02T00:00:00.000Z").2⟩

/- ===================== C10 ================================================ -/

/-- C10: both optimistic transforms adjust the cached summary counters
unconditionally — pending falls by exactly 1 and acknowledged (respectively
implemented) rises by exactly 1 for every cached response, whether or not any
item carries the target id or is pending — while an item's status field
changes exactly when its id equals the target (acknowledged + acknowledgedAt
stamp for acknowledge, completed for implement). -/
theorem c10_counter_updates_unconditional (X now : String) (o : OptimisationResponse) :
    ((ackUpdater X now (some o)).map (fun r => r.summary) =
        some { o.summary with pending := o.summary.pending - 1,
                              acknowledged := o.summary.acknowledged + 1 }) ∧
    ((implementUpdater X (some o)).map (fun r => r.summary) =
        some { o.summary with pending := o.summary.pending - 1,
                              implemented := o.summary.implemented + 1 }) ∧
    (∀ i opt, o.optimisations.get? i = some opt → opt.id ≠ X →
        ((ackUpdater X now (some o)).map (fun r => r.optimisations.get? i)
            = some (some opt)) ∧
        ((implementUpdater X (some o)).map (fun r => r.optimisations.get? i)
            = some (some opt))) ∧
    (∀ i opt, o.optimisations.get? i = some opt → opt.id = X →
        ((ackUpdater X now (some o)).map (fun r => r.optimisations.get? i)
            = some (some
                { opt with status := OptStatus.acknowledged, acknowledgedAt := some now })) ∧
        ((implementUpdater X (some o)).map (fun r => r.optimisations.get? i)
            = some (some { opt with status := OptStatus.completed }))) := by
  refine ⟨rfl, rfl, ?_, ?_⟩
  · intro i opt hget hne
    constructor
    · simp only [ackUpdater, Option.map_some']
      rw [List.get?_map, hget]
      simp [hne]
    · simp only [implementUpdater, Option.map_some']
      rw [List.get?_map, hget]
      simp [hne]
  · intro i opt hget hid
    constructor
    · simp only [ackUpdater, Option.map_some']
      rw [List.get?_map, hget]
      simp [hid]
    · simp only [implementUpdater, Option.map_some']
      rw [List.get?_map, hget]
      simp [hid]

/-- C10 witness: acknowledging the id opt-9, which the cached collection does
not contain, still moves the counters, and the unrelated item at index 0 is
untouched. -/
theorem c10_counter_updates_unconditional_witness :
    ((ackUpdater "opt-9" "t1" (some sampleResponse)).map (fun r => r.summary) =
        some { sampleResponse.summary with
               pending := sampleResponse.summary.pending - 1,
               acknowledged := sampleResponse.summary.acknowledged + 1 }) ∧
    ((ackUpdater "opt-9" "t1" (some sampleResponse)).map
        (fun r => r.optimisations.get? 0)
        = some (some (sampleOpt "opt-1" OptStatus.pending))) :=
  ⟨(c10_counter_updates_unconditional "opt-9" "t1" sampleResponse).1,
   ((c10_counter_updates_unconditional "opt-9" "t1" sampleResponse).2.2.1 0
      (sampleOpt "opt-1" OptStatus.pending) (by decide) (by decide)).1⟩

/- ===================== C5 ================================================= -/

/-- Reads arriving while a fetch is in flight only join the waiting list. -/
theorem runReads_joins {V : Type} (readers l : List ℕ) (n : ℕ) :
    runReads readers ({ cached := none, waiting := some l, fetchCount := n } : DedupState V)
      = { cached := none, waiting := some (l ++ readers), fetchCount := n } := by
  induction readers generalizing l with
  | nil => simp [runReads]
  | cons r rs ih =>
    show runReads rs ({ cached := none, waiting := some (l ++ [r]), fetchCount := n } : DedupState V) = _
    rw [ih (l ++ [r])]
    simp

/-- C5: a non-empty burst of concurrent reads on a cold key issues exactly
one underlying fetch (and never more than one), and when that single fetch
resolves every reader is delivered the same value, which is then cached. -/
theorem c5_read_coalescing {V : Type} (readers : List ℕ) (h : readers ≠ []) (v : V) :
    (runReads readers (DedupState.initial V)).fetchCount = 1 ∧
    (∀ rs : List ℕ, (runReads rs (DedupState.initial V)).fetchCount ≤ 1) ∧
    (resolveFetch v (runReads readers (DedupState.initial V))).2 =
      readers.map (fun r => (r, v)) ∧
    (resolveFetch v (runReads readers (DedupState.initial V))).1.cached = some v := by
  have hrun : ∀ (rs : List ℕ) (r : ℕ),
      runReads (r :: rs) (DedupState.initial V) =
        { cached := none, waiting := some (r :: rs), fetchCount := 1 } := by
    intro rs r
    show runReads rs ({ cached := none, waiting := some [r], fetchCount := 1 } : DedupState V) = _
    rw [runReads_joins]
    simp
  obtain ⟨r, rs, rfl⟩ := List.exists_cons_of_ne_nil h
  refine ⟨by rw [hrun], ?_, by rw [hrun]; rfl, by rw [hrun]; rfl⟩
  intro rs2
  cases rs2 with
  | nil => exact Nat.zero_le 1
  | cons r2 rest2 => rw [hrun]

/-- C5 witness: three concurrent readers of one key produce a single fetch
and all observe the same resolved value. -/
theorem c5_read_coalescing_witness :
    (runReads [0, 1, 2] (DedupState.initial ℚ)).fetchCount = 1 ∧
    (resolveFetch (7 : ℚ) (runReads [0, 1, 2] (DedupState.initial ℚ))).2 =
      [(0, 7), (1, 7), (2, 7)] := by
  have h := c5_read_coalescing (V := ℚ) [0, 1, 2] (by decide) 7
  exact ⟨h.1, by simpa using h.2.2.1⟩

/- ===================== C7 ================================================= -/

/-- Every axios-style 4xx error message contains the character '4'. -/
theorem clientError_contains_four :
    ((List.range 100).all fun k =>
      (createApiErrorMessage (400 + k) none false).data.contains '4') = true := by
  decide

/-- C7 (counterexample): the useNodes retry predicate blocks the 5xx failure
504 at its very first attempt (its message contains '4'), while the
useProductionFlow retry option retries every failure — including client
errors — since it never inspects the error at all. -/
theorem c7_status_class_counterexample :
    useNodesRetry 0 (createApiErrorMessage 504 none false) = false ∧
    productionFlowRetry 0 = true := by
  exact ⟨by decide, by decide⟩

/-- C7 (amended): useNodes retries a failure (up to 3 attempts) exactly when
its error message does not contain the character '4'; axios-style 4xx
messages always contain '4' and are therefore never retried, but the 5xx
message for 504 is blocked too, while 500 is retried; useProductionFlow
retries every failure up to 3 times with delay min(1000·2^attempt, 10000) ms
— there is no 30 s cap and no 4xx exemption. -/
theorem c7_retry_policy_amended :
    (∀ n msg, useNodesRetry n msg = true ↔ (msg.data.contains '4' = false ∧ n < 3)) ∧
    (∀ c : ℕ, 400 ≤ c → c < 500 →
        ∀ n b, useNodesRetry n (createApiErrorMessage c none b) = false) ∧
    (∀ n, useNodesRetry n (createApiErrorMessage 500 none false) = decide (n < 3)) ∧
    (∀ n, productionFlowRetry n = true ↔ n < 3) ∧
    (∀ i, productionFlowRetryDelay i = min (1000 * 2 ^ i) 10000) := by
  refine ⟨?_, ?_, ?_, ?_, fun i => rfl⟩
  · intro n msg
    unfold useNodesRetry
    by_cases hm : msg.data.contains '4'
    · simp [hm]
    · simp [hm]
  · intro c h1 h2 n b
    have hb : createApiErrorMessage c none b = createApiErrorMessage c none false := by
      simp only [createApiErrorMessage]
      rw [if_pos ⟨h1, h2⟩, if_pos ⟨h1, h2⟩]
    have h4 : (createApiErrorMessage c none false).data.contains '4' = true := by
      have hall := List.all_eq_true.mp clientError_contains_four (c - 400)
        (List.mem_range.mpr (by omega))
      rw [show 400 + (c - 400) = c from by omega] at hall
      exact hall
    unfold useNodesRetry
    rw [hb, h4]
    rfl
  · intro n
    have h4 : (createApiErrorMessage 500 none false).data.contains '4' = false := by decide
    unfold useNodesRetry
    rw [h4]
    rfl
  · intro n
    unfold productionFlowRetry
    simp

/-- C7 witness: the amended statement at the concrete status 404, first
attempt. -/
theorem c7_retry_policy_amended_witness :
    useNodesRetry 0 (createApiErrorMessage 404 none false) = false :=
  c7_retry_policy_amended.2.1 404 (by norm_num) (by norm_num) 0 false

/- ===================== C9 ================================================= -/

/-- C9 (counterexample): a system_alert event that names the affected asset
west — and carries no optimisation ids; the handler has no optimisation-id
field to consult — invalidates the alerts and summary caches but ALSO marks
the asset-scoped optimisations cache stale, contrary to the claim that
optimisations staleness is untouched unless optimisation ids are referenced. -/
theorem c9_alert_event_counterexample :
    staleAfterEvent sysAlertWest ["alerts"] = true ∧
    staleAfterEvent sysAlertWest ["summary"] = true ∧
    staleAfterEvent sysAlertWest ["optimisations", "asset", "west"] = true := by
  exact ⟨by decide, by decide, by decide⟩

/-- C9 (amended): a system_alert event always invalidates the alerts and
summary caches; when it carries no affectedAssets, no optimisations-prefixed
cache entry is marked stale; when it does carry affectedAssets, the
asset-scoped summary and optimisations caches of every listed asset are
additionally invalidated — optimisation ids are never consulted. -/
theorem c9_system_alert_invalidation (e : OptimisationEvent)
    (h : e.etype = EventType.systemAlert) :
    staleAfterEvent e ["alerts"] = true ∧
    staleAfterEvent e ["summary"] = true ∧
    (e.affectedAssets = none →
      ∀ k : QueryKey, keyMatches ["optimisations"] k = true →
        staleAfterEvent e k = false) ∧
    (∀ assets a, e.affectedAssets = some assets → a ∈ assets →
      staleAfterEvent e ["optimisations", "asset", assetIdStr a] = true) := by
  refine ⟨?_, ?_, ?_, ?_⟩
  · refine List.any_eq_true.mpr ⟨["alerts"], ?_, by decide⟩
    simp [invalidationsFor, h]
  · refine List.any_eq_true.mpr ⟨["summary"], ?_, by decide⟩
    simp [invalidationsFor, h]
  · intro hA k hk
    cases k with
    | nil => simp [keyMatches, List.isPrefixOf] at hk
    | cons kh kt =>
      simp only [keyMatches, List.isPrefixOf, Bool.and_eq_true, beq_iff_eq] at hk
      obtain ⟨hkh, _⟩ := hk
      subst hkh
      simp [staleAfterEvent, invalidationsFor, h, hA, keyMatches, List.isPrefixOf]
  · intro assets a hA ha
    refine List.any_eq_true.mpr ⟨["optimisations", "asset", assetIdStr a], ?_, ?_⟩
    · simp only [invalidationsFor, h, hA, List.mem_append, List.mem_flatMap]
      right
      exact ⟨a, ha, by simp⟩
    · exact List.isPrefixOf_iff_prefix.mpr (List.prefix_refl _)

/-- C9 witness: a system_alert with no affectedAssets invalidates alerts but
leaves an optimisations-prefixed entry fresh. -/
theorem c9_system_alert_invalidation_witness :
    staleAfterEvent sysAlertPlain ["alerts"] = true ∧
    staleAfterEvent sysAlertPlain ["optimisations", "all"] = false :=
  ⟨(c9_system_alert_invalidation sysAlertPlain rfl).1,
   (c9_system_alert_invalidation sysAlertPlain rfl).2.2.1 rfl ["optimisations", "all"]
     (by decide)⟩
